import Mathlib

/-!
Verification of the horizon-crossing core of `astroplan` (`src/astroplan/core.py`).

Times are modelled as rational numbers of fractional days (the `jd` values the
code manipulates), altitudes as rational angles.  Sequences (`numpy` arrays,
`astropy.time.Time` arrays) are Lean lists.  The two altitude backends —
`Observer.altaz` (the refraction-aware coordinate transform) and the local
sidereal time function — are external astropy collaborators, so they enter the
model as function parameters; everything else is translated statement by
statement from `core.py`.
-/

namespace Astroplan

/-- The `rise_set` argument of `Observer._horiz_cross`: `"rising"` or
`"setting"` (the invalid-string error branch is outside this enum). -/
inductive RiseSet where
  | rising
  | setting
deriving DecidableEq

/-- The `prev_next` argument of `Observer._calc_riseset` / `_calc_transit`. -/
inductive PrevNext where
  | next
  | previous
deriving DecidableEq

/-- The `which` argument of the public `calc_*` methods. -/
inductive Which where
  | next
  | previous
  | nearest
deriving DecidableEq

/-- One entry of the `condition` array of `Observer._horiz_cross`
(`core.py` lines 232-235): for rising, `alt[i] < horizon` and
`alt[i+1] > horizon`; for setting the inverse.  Both tests are strict. -/
def crossCond (rise_set : RiseSet) (horizon a b : ℚ) : Bool :=
  match rise_set with
  | RiseSet.rising => decide (a < horizon) && decide (b > horizon)
  | RiseSet.setting => decide (a > horizon) && decide (b < horizon)

/-- The whole `condition` array: the elementwise product of the shifted
comparisons `(alt[:-1] ? horizon) * (alt[1:] ? horizon)`. -/
def crossCondition (rise_set : RiseSet) (horizon : ℚ) (alt : List ℚ) : List Bool :=
  List.zipWith (crossCond rise_set horizon) alt alt.tail

/-- The four-way branch of `Observer._horiz_cross` on `nearest_index`
(`core.py` lines 246-269), reproduced verbatim (`t[-2]`/`t[-1]` are the
numpy negative indices).  Out-of-range accesses (which the source would turn
into `IndexError`) are totalised with `List.getD _ 0`. -/
def horiz_bracket (t alt : List ℚ) (nearest_index : ℕ) (horizon : ℚ) :
    (ℚ × ℚ) × (ℚ × ℚ) :=
  if nearest_index = 0 then
    ((t.getD 0 0, t.getD 1 0), (alt.getD 0 0, alt.getD 1 0))
  else if nearest_index = alt.length then
    ((t.getD (t.length - 2) 0, t.getD (t.length - 1) 0),
     (alt.getD (alt.length - 2) 0, alt.getD (alt.length - 1) 0))
  else if alt.getD nearest_index 0 > horizon then
    ((t.getD (nearest_index - 1) 0, t.getD nearest_index 0),
     (alt.getD (nearest_index - 1) 0, alt.getD nearest_index 0))
  else
    ((t.getD nearest_index 0, t.getD (nearest_index + 1) 0),
     (alt.getD nearest_index 0, alt.getD (nearest_index + 1) 0))

/-- `Observer._horiz_cross` (`core.py` lines 208-269).  `none` models the
`ValueError('Target does not rise/set with respect to horizon within 24
hours')` raised when `sum(condition) < 1`; otherwise
`nearest_index = np.argwhere(condition)[0][0]` is the first true index and
`horiz_bracket` is the branch on it. -/
def _horiz_cross (t alt : List ℚ) (rise_set : RiseSet) (horizon : ℚ) :
    Option ((ℚ × ℚ) × (ℚ × ℚ)) :=
  if (crossCondition rise_set horizon alt).any id = false then
    none
  else
    some (horiz_bracket t alt ((crossCondition rise_set horizon alt).findIdx id) horizon)

/-- `Observer._two_point_interp` (`core.py` lines 272-298): the slope of the
line through the two samples in altitude per fractional day, then the
closed-form solve `times[1].jd - (altitudes[1] - horizon)/slope`. -/
def _two_point_interp (t0 t1 a0 a1 horizon : ℚ) : ℚ :=
  let slope := (a1 - a0) / (t1 - t0)
  t1 - (a1 - horizon) / slope

/-- `np.linspace(start, stop, N)`: `N` evenly spaced samples from `start` to
`stop` inclusive (exact in ℚ: sample `k` is `start + (stop-start)*k/(N-1)`). -/
def linspace (start stop : ℚ) (N : ℕ) : List ℚ :=
  (List.range N).map
    (fun (k : ℕ) => start + (stop - start) * (k : ℚ) / ((N : ℚ) - 1))

/-- `_generate_24hr_grid` (`core.py` lines 39-77): a linear grid of day
offsets from `start` to `stop`, shifted to absolute instants by adding `t0`;
in derivative mode the first and last linspace points are replaced by
`start - 1/(N-1)` and `stop + 1/(N-1)`. -/
def _generate_24hr_grid (t0 start stop : ℚ) (N : ℕ) (for_deriv : Bool) :
    List ℚ :=
  let time_grid :=
    if for_deriv then
      [start - 1 / ((N : ℚ) - 1)] ++ ((linspace start stop N).drop 1).dropLast
        ++ [stop + 1 / ((N : ℚ) - 1)]
    else
      linspace start stop N
  time_grid.map (fun d => t0 + d)

/-- The fields of `Observer` that the rise/set core reads (`__init__` stores
`pressure` unchanged; `None` is `none`, a pressure of `p` bar is `some p`). -/
structure Observer where
  latitude : ℝ
  longitude : ℝ
  pressure : Option ℚ

/-- `Observer.__init__` (`core.py` lines 85-157) as far as the core reads it:
`self.pressure = pressure` with no conversion. -/
def Observer.init (latitude longitude : ℝ) (pressure : Option ℚ) : Observer :=
  ⟨latitude, longitude, pressure⟩

/-- Construction without an explicit `pressure` argument: Python applies the
declared default `pressure=None`. -/
def Observer.initDefault (latitude longitude : ℝ) : Observer :=
  Observer.init latitude longitude none

/-- Python's `self.pressure == 0*u.bar`: a `Quantity` equal to zero compares
true, while `None == 0*u.bar` is `False`. -/
def pressure_eq_zero_bar : Option ℚ → Bool
  | some p => decide (p = 0)
  | none => false

/-- The time grid chosen by `Observer._calc_riseset` (`core.py` lines
363-366): one day forward of `time` for `'next'`, one day backward for
`'previous'`, non-derivative mode. -/
def riseset_times (time : ℚ) (prev_next : PrevNext) (N : ℕ) : List ℚ :=
  match prev_next with
  | PrevNext.next => _generate_24hr_grid time 0 1 N false
  | PrevNext.previous => _generate_24hr_grid time (-1) 0 N false

/-- The altitude array of `Observer._calc_riseset` (`core.py` lines 368-373):
the trigonometric fast path when `self.pressure == 0*u.bar`, otherwise the
`altaz` transform.  Both backends are external evaluations of one grid
instant, passed in as `trigAlt` and `altazAlt`. -/
def riseset_altitudes (obs : Observer) (trigAlt altazAlt : ℚ → ℚ)
    (time : ℚ) (prev_next : PrevNext) (N : ℕ) : List ℚ :=
  if pressure_eq_zero_bar obs.pressure then
    (riseset_times time prev_next N).map trigAlt
  else
    (riseset_times time prev_next N).map altazAlt

/-- `Observer._calc_riseset` (`core.py` lines 327-377): grid, altitudes,
bracket, interpolation.  The `ValueError` of `_horiz_cross` propagates. -/
def _calc_riseset (obs : Observer) (trigAlt altazAlt : ℚ → ℚ) (time : ℚ)
    (prev_next : PrevNext) (rise_set : RiseSet) (horizon : ℚ) (N : ℕ) :
    Option ℚ :=
  (_horiz_cross (riseset_times time prev_next N)
      (riseset_altitudes obs trigAlt altazAlt time prev_next N)
      rise_set horizon).map
    (fun lims => _two_point_interp lims.1.1 lims.1.2 lims.2.1 lims.2.2 horizon)

/-- The time grid of `Observer._calc_transit` (`core.py` lines 411-414):
same windows as the rise/set grid but in derivative mode. -/
def transit_times (time : ℚ) (prev_next : PrevNext) (N : ℕ) : List ℚ :=
  match prev_next with
  | PrevNext.next => _generate_24hr_grid time 0 1 N true
  | PrevNext.previous => _generate_24hr_grid time (-1) 0 N true

/-- The direction flag of `Observer._calc_transit` (`core.py` lines 416-421):
`'rising'` for an antitransit, `'setting'` for a transit. -/
def transit_rise_set (antitransit : Bool) : RiseSet :=
  if antitransit then RiseSet.rising else RiseSet.setting

/-- `dt = Time((times.jd[1:] + times.jd[:-1])/2)` (`core.py` line 424): the
midpoints of consecutive grid instants. -/
def transit_dt (time : ℚ) (prev_next : PrevNext) (N : ℕ) : List ℚ :=
  List.zipWith (fun a b => (b + a) / 2) (transit_times time prev_next N)
    (transit_times time prev_next N).tail

/-- `d_altitudes = altitudes.diff()` (`core.py` lines 423-425): first
differences of the altitudes that `self.altaz(times, target).alt` returns on
the derivative grid — the transform backend only, there is no pressure test
in `_calc_transit`. -/
def transit_d_altitudes (altazAlt : ℚ → ℚ) (time : ℚ) (prev_next : PrevNext)
    (N : ℕ) : List ℚ :=
  List.zipWith (fun a b => b - a)
    ((transit_times time prev_next N).map altazAlt)
    ((transit_times time prev_next N).map altazAlt).tail

/-- `Observer._calc_transit` (`core.py` lines 379-430): the shared bracket
finder and interpolator run with `horizon = 0*u.degree` on the
altitude-derivative sequence.  `trigAlt` is the trigonometric backend the
observer also carries; the body never consults it (nor `obs.pressure`):
the source calls `self.altaz` unconditionally. -/
def _calc_transit (obs : Observer) (trigAlt altazAlt : ℚ → ℚ) (time : ℚ)
    (prev_next : PrevNext) (antitransit : Bool) (N : ℕ) : Option ℚ :=
  (_horiz_cross (transit_dt time prev_next N)
      (transit_d_altitudes altazAlt time prev_next N)
      (transit_rise_set antitransit) 0).map
    (fun lims => _two_point_interp lims.1.1 lims.1.2 lims.2.1 lims.2.2 0)

/-- `Observer.calc_rise` (`core.py` lines 433-482): `'next'` and
`'previous'` delegate to `_calc_riseset` with direction `'rising'`;
`'nearest'` computes the next rise first, then the previous one, and keeps
the previous one only when it is strictly nearer to `time`. -/
def calc_rise (obs : Observer) (trigAlt altazAlt : ℚ → ℚ) (time : ℚ)
    (which : Which) (horizon : ℚ) (N : ℕ) : Option ℚ :=
  match which with
  | Which.next =>
      _calc_riseset obs trigAlt altazAlt time PrevNext.next RiseSet.rising horizon N
  | Which.previous =>
      _calc_riseset obs trigAlt altazAlt time PrevNext.previous RiseSet.rising horizon N
  | Which.nearest =>
      (_calc_riseset obs trigAlt altazAlt time PrevNext.next RiseSet.rising horizon N).bind
        (fun next_rise =>
          (_calc_riseset obs trigAlt altazAlt time PrevNext.previous RiseSet.rising
              horizon N).map
            (fun previous_rise =>
              if |time - previous_rise| < |time - next_rise| then previous_rise
              else next_rise))

/-- `Observer.calc_set` (`core.py` lines 485-534): as `calc_rise` with
direction `'setting'`. -/
def calc_set (obs : Observer) (trigAlt altazAlt : ℚ → ℚ) (time : ℚ)
    (which : Which) (horizon : ℚ) (N : ℕ) : Option ℚ :=
  match which with
  | Which.next =>
      _calc_riseset obs trigAlt altazAlt time PrevNext.next RiseSet.setting horizon N
  | Which.previous =>
      _calc_riseset obs trigAlt altazAlt time PrevNext.previous RiseSet.setting horizon N
  | Which.nearest =>
      (_calc_riseset obs trigAlt altazAlt time PrevNext.next RiseSet.setting horizon N).bind
        (fun next_set =>
          (_calc_riseset obs trigAlt altazAlt time PrevNext.previous RiseSet.setting
              horizon N).map
            (fun previous_set =>
              if |time - previous_set| < |time - next_set| then previous_set
              else next_set))

/-- `Observer.calc_transit` (`core.py` lines 536-576). -/
def calc_transit (obs : Observer) (trigAlt altazAlt : ℚ → ℚ) (time : ℚ)
    (which : Which) (N : ℕ) : Option ℚ :=
  match which with
  | Which.next =>
      _calc_transit obs trigAlt altazAlt time PrevNext.next false N
  | Which.previous =>
      _calc_transit obs trigAlt altazAlt time PrevNext.previous false N
  | Which.nearest =>
      (_calc_transit obs trigAlt altazAlt time PrevNext.next false N).bind
        (fun next_transit =>
          (_calc_transit obs trigAlt altazAlt time PrevNext.previous false N).map
            (fun previous_transit =>
              if |time - previous_transit| < |time - next_transit| then previous_transit
              else next_transit))

/-- `Observer.calc_antitransit` (`core.py` lines 578-620). -/
def calc_antitransit (obs : Observer) (trigAlt altazAlt : ℚ → ℚ) (time : ℚ)
    (which : Which) (N : ℕ) : Option ℚ :=
  match which with
  | Which.next =>
      _calc_transit obs trigAlt altazAlt time PrevNext.next true N
  | Which.previous =>
      _calc_transit obs trigAlt altazAlt time PrevNext.previous true N
  | Which.nearest =>
      (_calc_transit obs trigAlt altazAlt time PrevNext.next true N).bind
        (fun next_antitransit =>
          (_calc_transit obs trigAlt altazAlt time PrevNext.previous true N).map
            (fun previous_antitransit =>
              if |time - previous_antitransit| < |time - next_antitransit| then
                previous_antitransit
              else next_antitransit))

/-- A target coordinate: the `ra`/`dec` pair the trigonometric backend reads. -/
structure TargetCoord where
  ra : ℝ
  dec : ℝ

/-- `Observer._altitude_trig` (`core.py` lines 300-325):
`arcsin(sin(lat)·sin(dec) + cos(lat)·cos(dec)·cos(LST − ra))`. -/
noncomputable def _altitude_trig (latitude lst ra dec : ℝ) : ℝ :=
  Real.arcsin (Real.sin latitude * Real.sin dec +
    Real.cos latitude * Real.cos dec * Real.cos (lst - ra))

/-- The backend dispatch of `Observer._calc_riseset` (`core.py` lines
368-373) at the level of real-valued altitudes: when
`self.pressure == 0*u.bar`, the local sidereal time of each grid instant at
the observer's longitude feeds `_altitude_trig`; otherwise the external
`altaz` transform supplies the altitudes.  `lst` is the external
`sidereal_time` collaborator, `altazAlt` the external transform. -/
noncomputable def riseset_altitudes_real (obs : Observer) (lst : ℝ → ℚ → ℝ)
    (altazAlt : ℚ → ℝ) (target : TargetCoord) (times : List ℚ) : List ℝ :=
  if pressure_eq_zero_bar obs.pressure then
    times.map (fun tm => _altitude_trig obs.latitude (lst obs.longitude tm)
      target.ra target.dec)
  else
    times.map altazAlt

/-- The day-fraction of an instant, spelled with explicit shifts (valid on
`[-2, 2]`, which covers both one-day search windows around `0`). -/
def fracShift (t : ℚ) : ℚ :=
  if t < -1 then t + 2 else if t < 0 then t + 1 else if 1 < t then t - 1 else t

/-- The cubic `x*(1-x)*(2-x)`. -/
def sampleCubic (x : ℚ) : ℚ := x * (1 - x) * (2 - x)

/-- A concrete periodic altitude profile used to exercise the pipeline: the
day-fraction shaped into a cubic that rises and falls once per day. -/
def sampleAlt : ℚ → ℚ := fun t => sampleCubic (fracShift t)

/-- An altitude backend that is identically zero. -/
def zeroAlt : ℚ → ℚ := fun _ => 0

/-- An observer with no declared pressure (the Python default). -/
def sampleObserver : Observer := Observer.init 0 0 none

example : crossCondition RiseSet.rising 0 [-1, 1, 2] = [true, false] := by decide

example : _horiz_cross [0, 1, 2] [-1, 1, 2] RiseSet.rising 0
    = some ((0, 1), (-1, 1)) := by decide

example : _horiz_cross [0, 1, 2] [2, 1, -1] RiseSet.setting 0
    = some ((0, 1), (2, 1)) := by decide

example : _horiz_cross [0, 1, 2] [1, 2, 3] RiseSet.rising 0 = none := by decide

example : _two_point_interp 0 1 (-1) 1 0 = 1 / 2 := by norm_num [_two_point_interp]

example : _generate_24hr_grid 0 0 1 3 false = [0, 1/2, 1] := by
  norm_num [_generate_24hr_grid, linspace, List.range_succ]

example : _generate_24hr_grid 0 0 2 3 true = [-(1/2), 1, 5/2] := by
  norm_num [_generate_24hr_grid, linspace, List.range_succ]

/-! ### General lemmas about the embedded operations -/

theorem crossCondition_length (rise_set : RiseSet) (horizon : ℚ) (alt : List ℚ) :
    (crossCondition rise_set horizon alt).length = alt.length - 1 := by
  simp [crossCondition, List.length_zipWith, List.length_tail]

theorem zipWith_tail_getD {α β : Type*} (f : α → α → β) (l : List α) (i : ℕ)
    (da : α) (db : β) (hi : i + 1 < l.length) :
    (List.zipWith f l l.tail).getD i db = f (l.getD i da) (l.getD (i + 1) da) := by
  have hz : i < (List.zipWith f l l.tail).length := by
    simp [List.length_zipWith, List.length_tail]; omega
  have h1 : i < l.length := by omega
  have h2 : i < l.tail.length := by simp [List.length_tail]; omega
  rw [List.getD_eq_getElem _ _ hz, List.getElem_zipWith,
    List.getD_eq_getElem _ _ h1, List.getD_eq_getElem _ _ hi,
    List.getElem_tail]

theorem crossCondition_getD (rise_set : RiseSet) (horizon : ℚ) (alt : List ℚ)
    (i : ℕ) (hi : i + 1 < alt.length) :
    (crossCondition rise_set horizon alt).getD i false
      = crossCond rise_set horizon (alt.getD i 0) (alt.getD (i + 1) 0) := by
  exact zipWith_tail_getD (crossCond rise_set horizon) alt i 0 false hi

/-- What `_horiz_cross` returns at the first straddling index `i`: the pair
`(i, i+1)` in the rising direction and for `i = 0`, the shifted pair
`(i-1, i)` in the setting direction once `1 ≤ i`. -/
theorem horiz_cross_eq_of_first (t alt : List ℚ) (rise_set : RiseSet)
    (horizon : ℚ) (i : ℕ) (hi : i + 1 < alt.length)
    (hstrad : crossCond rise_set horizon (alt.getD i 0) (alt.getD (i + 1) 0) = true)
    (hmin : ∀ j, j < i →
      crossCond rise_set horizon (alt.getD j 0) (alt.getD (j + 1) 0) = false) :
    _horiz_cross t alt rise_set horizon =
      if rise_set = RiseSet.setting ∧ 1 ≤ i then
        some ((t.getD (i - 1) 0, t.getD i 0), (alt.getD (i - 1) 0, alt.getD i 0))
      else
        some ((t.getD i 0, t.getD (i + 1) 0), (alt.getD i 0, alt.getD (i + 1) 0)) := by
  have hclen : (crossCondition rise_set horizon alt).length = alt.length - 1 :=
    crossCondition_length rise_set horizon alt
  have hic : i < (crossCondition rise_set horizon alt).length := by omega
  have hcondi : (crossCondition rise_set horizon alt)[i] = true := by
    rw [← List.getD_eq_getElem _ false hic, crossCondition_getD _ _ _ _ hi]
    exact hstrad
  have hany : (crossCondition rise_set horizon alt).any id = true :=
    List.any_eq_true.mpr ⟨_, List.getElem_mem hic, hcondi⟩
  have hfind : (crossCondition rise_set horizon alt).findIdx id = i := by
    refine (List.findIdx_eq hic).mpr ⟨by simpa using hcondi, fun j hj => ?_⟩
    have hjc : j < (crossCondition rise_set horizon alt).length := by omega
    have hj1 : j + 1 < alt.length := by omega
    show (crossCondition rise_set horizon alt)[j] = false
    rw [← List.getD_eq_getElem _ false hjc, crossCondition_getD _ _ _ _ hj1]
    exact hmin j hj
  have hne : i ≠ alt.length := by omega
  have hred : _horiz_cross t alt rise_set horizon
      = some (horiz_bracket t alt i horizon) := by
    unfold _horiz_cross
    rw [if_neg (by simp [hany]), hfind]
  rw [hred]
  cases rise_set with
  | rising =>
      have hstrad' := hstrad
      simp only [crossCond, Bool.and_eq_true, decide_eq_true_eq] at hstrad'
      have hnotgt : ¬ alt.getD i 0 > horizon := not_lt.mpr (le_of_lt hstrad'.1)
      rw [if_neg (by simp)]
      by_cases h0 : i = 0
      · subst h0
        unfold horiz_bracket
        rw [if_pos rfl]
      · unfold horiz_bracket
        rw [if_neg h0, if_neg hne, if_neg hnotgt]
  | setting =>
      have hstrad' := hstrad
      simp only [crossCond, Bool.and_eq_true, decide_eq_true_eq] at hstrad'
      by_cases h0 : i = 0
      · subst h0
        rw [if_neg (by simp)]
        unfold horiz_bracket
        rw [if_pos rfl]
      · have h1 : 1 ≤ i := Nat.one_le_iff_ne_zero.mpr h0
        rw [if_pos ⟨rfl, h1⟩]
        unfold horiz_bracket
        rw [if_neg h0, if_neg hne, if_pos hstrad'.1]

/-- `_horiz_cross` fails exactly when no adjacent pair straddles the horizon
in the requested direction. -/
theorem horiz_cross_none_iff (t alt : List ℚ) (rise_set : RiseSet) (horizon : ℚ) :
    _horiz_cross t alt rise_set horizon = none ↔
      ∀ i, i + 1 < alt.length →
        crossCond rise_set horizon (alt.getD i 0) (alt.getD (i + 1) 0) = false := by
  have hclen : (crossCondition rise_set horizon alt).length = alt.length - 1 :=
    crossCondition_length rise_set horizon alt
  have hnone : _horiz_cross t alt rise_set horizon = none ↔
      (crossCondition rise_set horizon alt).any id = false := by
    constructor
    · intro hres
      by_contra hc
      have hany : (crossCondition rise_set horizon alt).any id = true := by
        revert hc; cases (crossCondition rise_set horizon alt).any id <;> simp
      unfold _horiz_cross at hres
      rw [if_neg (by simp [hany])] at hres
      exact Option.some_ne_none _ hres
    · intro hany
      unfold _horiz_cross
      rw [if_pos hany]
  rw [hnone]
  constructor
  · intro hall i hi
    have hic : i < (crossCondition rise_set horizon alt).length := by omega
    have hmem := List.any_eq_false.mp hall _ (List.getElem_mem hic)
    rw [← crossCondition_getD _ _ _ _ hi, List.getD_eq_getElem _ false hic]
    simpa using hmem
  · intro hall
    by_contra hc
    have hany : (crossCondition rise_set horizon alt).any id = true := by
      revert hc; cases (crossCondition rise_set horizon alt).any id <;> simp
    obtain ⟨x, hmem, hx⟩ := List.any_eq_true.mp hany
    obtain ⟨i, hic, hgi⟩ := List.mem_iff_getElem.mp hmem
    have hi1 : i + 1 < alt.length := by omega
    have : crossCond rise_set horizon (alt.getD i 0) (alt.getD (i + 1) 0) = true := by
      rw [← crossCondition_getD _ _ _ _ hi1, List.getD_eq_getElem _ false hic, hgi]
      simpa using hx
    rw [hall i hi1] at this
    exact Bool.false_ne_true this

theorem linspace_length (start stop : ℚ) (N : ℕ) :
    (linspace start stop N).length = N := by
  unfold linspace
  rw [List.length_map, List.length_range]

theorem linspace_getD (start stop : ℚ) (N k : ℕ) (hk : k < N) :
    (linspace start stop N).getD k 0
      = start + (stop - start) * (k : ℚ) / ((N : ℚ) - 1) := by
  have hk' : k < (linspace start stop N).length := by
    rw [linspace_length]; exact hk
  rw [List.getD_eq_getElem _ _ hk']
  unfold linspace
  rw [List.getElem_map, List.getElem_range]

theorem grid_nonderiv_getD (t0 start stop : ℚ) (N k : ℕ) (hk : k < N) :
    (_generate_24hr_grid t0 start stop N false).getD k 0
      = t0 + (start + (stop - start) * (k : ℚ) / ((N : ℚ) - 1)) := by
  show ((linspace start stop N).map (fun d => t0 + d)).getD k 0 = _
  have hk' : k < ((linspace start stop N).map (fun d => t0 + d)).length := by
    rw [List.length_map, linspace_length]; exact hk
  have hk'' : k < (linspace start stop N).length := by
    rw [linspace_length]; exact hk
  rw [List.getD_eq_getElem _ _ hk', List.getElem_map,
    ← List.getD_eq_getElem _ (0 : ℚ) hk'', linspace_getD start stop N k hk]

/-- The derivative-mode grid written as a cons/append of its three parts. -/
theorem deriv_grid_eq (t0 start stop : ℚ) (N : ℕ) :
    _generate_24hr_grid t0 start stop N true
      = ((start - 1 / ((N : ℚ) - 1)) ::
          (((linspace start stop N).drop 1).dropLast
            ++ [stop + 1 / ((N : ℚ) - 1)])).map (fun d => t0 + d) := rfl

theorem grid_deriv_length (t0 start stop : ℚ) (N : ℕ) (hN : 2 ≤ N) :
    (_generate_24hr_grid t0 start stop N true).length = N := by
  rw [deriv_grid_eq, List.length_map, List.length_cons, List.length_append,
    List.length_dropLast, List.length_drop, linspace_length]
  simp
  omega

theorem grid_deriv_getD_zero (t0 start stop : ℚ) (N : ℕ) :
    (_generate_24hr_grid t0 start stop N true).getD 0 0
      = t0 + (start - 1 / ((N : ℚ) - 1)) := by
  rw [deriv_grid_eq]
  rfl

theorem grid_deriv_getD_mid (t0 start stop : ℚ) (N k : ℕ) (hN : 2 ≤ N)
    (hk1 : 1 ≤ k) (hk2 : k ≤ N - 2) :
    (_generate_24hr_grid t0 start stop N true).getD k 0
      = t0 + (start + (stop - start) * (k : ℚ) / ((N : ℚ) - 1)) := by
  obtain ⟨j, rfl⟩ : ∃ j, k = j + 1 := ⟨k - 1, by omega⟩
  rw [deriv_grid_eq, List.map_cons, List.getD_cons_succ]
  have hmlen : (((linspace start stop N).drop 1).dropLast).length = N - 2 := by
    rw [List.length_dropLast, List.length_drop, linspace_length]
    omega
  have hj : j < (((((linspace start stop N).drop 1).dropLast)
      ++ [stop + 1 / ((N : ℚ) - 1)]).map (fun d => t0 + d)).length := by
    rw [List.length_map, List.length_append, hmlen]
    simp
    omega
  have hjm : j < (((linspace start stop N).drop 1).dropLast).length := by
    rw [hmlen]; omega
  have hjl : 1 + j < (linspace start stop N).length := by
    rw [linspace_length]; omega
  rw [List.getD_eq_getElem _ _ hj, List.getElem_map,
    List.getElem_append_left hjm,
    List.getElem_dropLast, List.getElem_drop,
    ← List.getD_eq_getElem _ (0 : ℚ) hjl]
  have h1j : 1 + j = j + 1 := by omega
  rw [h1j, linspace_getD start stop N (j + 1) (by omega)]

theorem grid_deriv_getD_last (t0 start stop : ℚ) (N : ℕ) (hN : 2 ≤ N) :
    (_generate_24hr_grid t0 start stop N true).getD (N - 1) 0
      = t0 + (stop + 1 / ((N : ℚ) - 1)) := by
  rw [deriv_grid_eq, List.map_cons]
  have hk : N - 1 = (N - 2) + 1 := by omega
  rw [hk, List.getD_cons_succ, List.map_append]
  have hmlen : ((((linspace start stop N).drop 1).dropLast).map
      (fun d => t0 + d)).length = N - 2 := by
    rw [List.length_map, List.length_dropLast, List.length_drop, linspace_length]
    omega
  have hb : N - 2 < (((((linspace start stop N).drop 1).dropLast).map
      (fun d => t0 + d)) ++ [t0 + (stop + 1 / ((N : ℚ) - 1))]).length := by
    rw [List.length_append, hmlen]
    simp
  rw [show ([stop + 1 / ((N : ℚ) - 1)].map (fun d => t0 + d))
      = [t0 + (stop + 1 / ((N : ℚ) - 1))] from rfl]
  rw [List.getD_eq_getElem _ _ hb,
    List.getElem_concat_length _ _ _ hmlen.symm]

/-! ### C1: the bracket returned by `_horiz_cross` -/

/-- C1 counterexample: on `t = [0,1,2]`, `alt = [2,1,-1]`, direction
`setting`, horizon `0`, the first (and only) strictly straddling adjacent
pair is `(1, 2)` — `alt[1] = 1 > 0 > -1 = alt[2]` — so the claim demands the
limits `((t[1], t[2]), (alt[1], alt[2])) = ((1, 2), (1, -1))`, but
`_horiz_cross` returns the preceding pair `((0, 1), (2, 1))`. -/
theorem horiz_cross_setting_bracket_cex :
    crossCond RiseSet.setting 0 (2 : ℚ) (1 : ℚ) = false
    ∧ crossCond RiseSet.setting 0 (1 : ℚ) (-1 : ℚ) = true
    ∧ _horiz_cross [0, 1, 2] [2, 1, -1] RiseSet.setting 0
        ≠ some ((1, 2), (1, -1))
    ∧ _horiz_cross [0, 1, 2] [2, 1, -1] RiseSet.setting 0
        = some ((0, 1), (2, 1)) := by decide

/-- C1 (amended): let `i` be the lowest index whose adjacent pair strictly
straddles the horizon in the requested direction.  In direction `rising` the
returned limits are exactly `((t[i], t[i+1]), (alt[i], alt[i+1]))`; in
direction `setting` this holds only for `i = 0`, while for `i ≥ 1` the
returned limits are the preceding pair
`((t[i-1], t[i]), (alt[i-1], alt[i]))`. -/
theorem horiz_cross_first_straddle_bracket
    (t alt : List ℚ) (rise_set : RiseSet) (horizon : ℚ) (i : ℕ)
    (hlen : t.length = alt.length) (hi : i + 1 < alt.length)
    (hstrad : crossCond rise_set horizon (alt.getD i 0) (alt.getD (i + 1) 0) = true)
    (hfirst : ∀ j, j < i →
      crossCond rise_set horizon (alt.getD j 0) (alt.getD (j + 1) 0) = false) :
    (rise_set = RiseSet.rising →
      _horiz_cross t alt rise_set horizon
        = some ((t.getD i 0, t.getD (i + 1) 0), (alt.getD i 0, alt.getD (i + 1) 0)))
    ∧ (rise_set = RiseSet.setting → i = 0 →
      _horiz_cross t alt rise_set horizon
        = some ((t.getD 0 0, t.getD 1 0), (alt.getD 0 0, alt.getD 1 0)))
    ∧ (rise_set = RiseSet.setting → 1 ≤ i →
      _horiz_cross t alt rise_set horizon
        = some ((t.getD (i - 1) 0, t.getD i 0), (alt.getD (i - 1) 0, alt.getD i 0))) := by
  have key := horiz_cross_eq_of_first t alt rise_set horizon i hi hstrad hfirst
  refine ⟨?_, ?_, ?_⟩
  · rintro rfl
    rw [key, if_neg (by simp)]
  · rintro rfl rfl
    rw [key, if_neg (by simp)]
  · rintro rfl h1
    rw [key, if_pos ⟨rfl, h1⟩]

/-- C1 witness: a rising crossing at index 0 of `t = [0,1]`,
`alt = [-1,1]` yields the straddling pair itself. -/
theorem horiz_cross_first_straddle_bracket_witness :
    _horiz_cross [0, 1] [-1, 1] RiseSet.rising 0 = some ((0, 1), (-1, 1)) :=
  (horiz_cross_first_straddle_bracket [0, 1] [-1, 1] RiseSet.rising 0 0
    (by decide) (by decide) (by decide)
    (fun j hj => absurd hj (Nat.not_lt_zero j))).1 rfl

/-! ### C9: edge behaviour of the bracket -/

/-- C9 counterexample: on `t = [0,1,2]`, `alt = [3,1,-2]`, direction
`setting`, horizon `0`, the first straddling pair is the last adjacent pair
`(1, 2)`, so the claim demands the two extreme samples
`((t[-2], t[-1]), (alt[-2], alt[-1])) = ((1, 2), (1, -2))`; the code instead
returns `((0, 1), (3, 1))` — not the extreme samples of that end. -/
theorem horiz_cross_edge_cex :
    crossCond RiseSet.setting 0 (3 : ℚ) (1 : ℚ) = false
    ∧ crossCond RiseSet.setting 0 (1 : ℚ) (-2 : ℚ) = true
    ∧ _horiz_cross [0, 1, 2] [3, 1, -2] RiseSet.setting 0
        ≠ some ((1, 2), (1, -2))
    ∧ _horiz_cross [0, 1, 2] [3, 1, -2] RiseSet.setting 0
        = some ((0, 1), (3, 1)) := by decide

/-- C9 (amended): a first straddling pair at the very start of the array
yields the two first samples (both directions) and the call does not fail;
a first straddling pair at the very end yields the two extreme samples
`(t[-2], t[-1])`, `(alt[-2], alt[-1])` in the rising direction, but in the
setting direction the code returns the preceding pair
`((t[-3], t[-2]), (alt[-3], alt[-2]))` instead. -/
theorem horiz_cross_edge_brackets
    (t alt : List ℚ) (rise_set : RiseSet) (horizon : ℚ)
    (hlen : t.length = alt.length) (hn : 2 ≤ alt.length) :
    (crossCond rise_set horizon (alt.getD 0 0) (alt.getD 1 0) = true →
      _horiz_cross t alt rise_set horizon
        = some ((t.getD 0 0, t.getD 1 0), (alt.getD 0 0, alt.getD 1 0)))
    ∧ (rise_set = RiseSet.rising →
       (∀ j, j < alt.length - 2 →
         crossCond rise_set horizon (alt.getD j 0) (alt.getD (j + 1) 0) = false) →
       crossCond rise_set horizon (alt.getD (alt.length - 2) 0)
           (alt.getD (alt.length - 1) 0) = true →
      _horiz_cross t alt rise_set horizon
        = some ((t.getD (alt.length - 2) 0, t.getD (alt.length - 1) 0),
                (alt.getD (alt.length - 2) 0, alt.getD (alt.length - 1) 0)))
    ∧ (rise_set = RiseSet.setting → 3 ≤ alt.length →
       (∀ j, j < alt.length - 2 →
         crossCond rise_set horizon (alt.getD j 0) (alt.getD (j + 1) 0) = false) →
       crossCond rise_set horizon (alt.getD (alt.length - 2) 0)
           (alt.getD (alt.length - 1) 0) = true →
      _horiz_cross t alt rise_set horizon
        = some ((t.getD (alt.length - 3) 0, t.getD (alt.length - 2) 0),
                (alt.getD (alt.length - 3) 0, alt.getD (alt.length - 2) 0))) := by
  refine ⟨?_, ?_, ?_⟩
  · intro h0
    have hi : 0 + 1 < alt.length := by omega
    have key := horiz_cross_eq_of_first t alt rise_set horizon 0 hi h0
      (fun j hj => absurd hj (Nat.not_lt_zero j))
    rw [key, if_neg (by simp)]
  · rintro rfl hfirst hlast
    have hi : (alt.length - 2) + 1 < alt.length := by omega
    have h21 : alt.length - 2 + 1 = alt.length - 1 := by omega
    have key := horiz_cross_eq_of_first t alt RiseSet.rising horizon
      (alt.length - 2) hi (by rw [h21]; exact hlast) hfirst
    rw [h21] at key
    rw [key, if_neg (by simp)]
  · rintro rfl h3 hfirst hlast
    have hi : (alt.length - 2) + 1 < alt.length := by omega
    have h21 : alt.length - 2 + 1 = alt.length - 1 := by omega
    have key := horiz_cross_eq_of_first t alt RiseSet.setting horizon
      (alt.length - 2) hi (by rw [h21]; exact hlast) hfirst
    have h1 : 1 ≤ alt.length - 2 := by omega
    have h32 : alt.length - 2 - 1 = alt.length - 3 := by omega
    rw [h32] at key
    rw [key, if_pos ⟨rfl, h1⟩]

/-- C9 witness: a rising crossing at the last adjacent pair of
`t = [0,1,2]`, `alt = [-2,-1,1]` yields the two extreme samples. -/
theorem horiz_cross_edge_brackets_witness :
    _horiz_cross [0, 1, 2] [-2, -1, 1] RiseSet.rising 0
      = some ((1, 2), (-1, 1)) :=
  (horiz_cross_edge_brackets [0, 1, 2] [-2, -1, 1] RiseSet.rising 0
    (by decide) (by decide)).2.1 rfl (by decide) (by decide)

/-! ### C5: the no-crossing failure condition -/

/-- C5: `_horiz_cross` — and with it `_calc_riseset` and `_calc_transit`,
hence every rise/set/transit/antitransit query built on them — fails with
the no-crossing error (`none`, the `'Target does not rise/set with respect
to horizon within 24 hours'` `ValueError`) exactly when no adjacent pair of
the scanned sequence strictly straddles the threshold in the requested
direction; in that case no result is produced and nothing is retried. -/
theorem no_crossing_error_iff :
    (∀ (t alt : List ℚ) (rise_set : RiseSet) (horizon : ℚ),
      _horiz_cross t alt rise_set horizon = none ↔
        ∀ i, i + 1 < alt.length →
          crossCond rise_set horizon (alt.getD i 0) (alt.getD (i + 1) 0) = false)
    ∧ (∀ (obs : Observer) (trigAlt altazAlt : ℚ → ℚ) (time : ℚ)
        (prev_next : PrevNext) (rise_set : RiseSet) (horizon : ℚ) (N : ℕ),
      _calc_riseset obs trigAlt altazAlt time prev_next rise_set horizon N = none ↔
        _horiz_cross (riseset_times time prev_next N)
          (riseset_altitudes obs trigAlt altazAlt time prev_next N)
          rise_set horizon = none)
    ∧ (∀ (obs : Observer) (trigAlt altazAlt : ℚ → ℚ) (time : ℚ)
        (prev_next : PrevNext) (antitransit : Bool) (N : ℕ),
      _calc_transit obs trigAlt altazAlt time prev_next antitransit N = none ↔
        _horiz_cross (transit_dt time prev_next N)
          (transit_d_altitudes altazAlt time prev_next N)
          (transit_rise_set antitransit) 0 = none) := by
  refine ⟨horiz_cross_none_iff, fun _ _ _ _ _ _ _ _ => ?_, fun _ _ _ _ _ _ _ => ?_⟩
  · simp [_calc_riseset, Option.map_eq_none']
  · simp [_calc_transit, Option.map_eq_none']

/-! ### C3, C4: the 24-hour grid generator -/

/-- C3: in non-derivative mode, for `N ≥ 2` and `start < stop`,
`_generate_24hr_grid` returns exactly `N` instants, strictly increasing,
whose first and last elements equal `t0 + start` and `t0 + stop` exactly. -/
theorem generate_24hr_grid_nonderiv (t0 start stop : ℚ) (N : ℕ)
    (hN : 2 ≤ N) (hse : start < stop) :
    (_generate_24hr_grid t0 start stop N false).length = N
    ∧ (_generate_24hr_grid t0 start stop N false).Pairwise (· < ·)
    ∧ (_generate_24hr_grid t0 start stop N false).getD 0 0 = t0 + start
    ∧ (_generate_24hr_grid t0 start stop N false).getD (N - 1) 0 = t0 + stop := by
  have hNQ : (2 : ℚ) ≤ (N : ℚ) := by exact_mod_cast hN
  have hN1 : (0 : ℚ) < (N : ℚ) - 1 := by linarith
  have hN1' : ((N : ℚ) - 1) ≠ 0 := ne_of_gt hN1
  have hss : (0 : ℚ) < stop - start := by linarith
  refine ⟨?_, ?_, ?_, ?_⟩
  · show ((linspace start stop N).map (fun d => t0 + d)).length = N
    rw [List.length_map, linspace_length]
  · show ((linspace start stop N).map (fun d => t0 + d)).Pairwise (· < ·)
    unfold linspace
    rw [List.map_map]
    refine List.Pairwise.map _ ?_ (List.pairwise_lt_range N)
    intro a b hab
    have hab' : (a : ℚ) < (b : ℚ) := by exact_mod_cast hab
    show t0 + (start + (stop - start) * (a : ℚ) / ((N : ℚ) - 1))
        < t0 + (start + (stop - start) * (b : ℚ) / ((N : ℚ) - 1))
    have hstep : (stop - start) * (a : ℚ) / ((N : ℚ) - 1)
        < (stop - start) * (b : ℚ) / ((N : ℚ) - 1) := by
      gcongr
    linarith
  · rw [grid_nonderiv_getD t0 start stop N 0 (by omega)]
    norm_num
  · rw [grid_nonderiv_getD t0 start stop N (N - 1) (by omega)]
    rw [Nat.cast_sub (by omega : 1 ≤ N), Nat.cast_one]
    rw [mul_div_assoc, div_self hN1', mul_one]
    ring

/-- C3 witness: `t0 = 0`, `start = 0 < 1 = stop`, `N = 2`. -/
theorem generate_24hr_grid_nonderiv_witness :
    (_generate_24hr_grid 0 0 1 2 false).length = 2
    ∧ (_generate_24hr_grid 0 0 1 2 false).Pairwise (· < ·)
    ∧ (_generate_24hr_grid 0 0 1 2 false).getD 0 0 = 0 + 0
    ∧ (_generate_24hr_grid 0 0 1 2 false).getD (2 - 1) 0 = 0 + 1 :=
  generate_24hr_grid_nonderiv 0 0 1 2 (by norm_num) (by norm_num)

/-- C4 counterexample: with `t0 = 0`, `start = 0 < 2 = stop` and
`N = 3 ≥ 2`, the derivative-mode grid is `[-1/2, 1, 5/2]`; the midpoint of
its first consecutive pair is `1/4`, not the boundary `t0 + start = 0`, so
the claimed midpoint property fails for a window that is not one day wide. -/
theorem generate_24hr_grid_deriv_cex :
    _generate_24hr_grid 0 0 2 3 true = [-(1 / 2), 1, 5 / 2]
    ∧ ((_generate_24hr_grid 0 0 2 3 true).getD 0 0
        + (_generate_24hr_grid 0 0 2 3 true).getD 1 0) / 2 ≠ 0 + 0 := by
  constructor
  · norm_num [_generate_24hr_grid, linspace, List.range_succ]
  · norm_num [_generate_24hr_grid, linspace, List.range_succ]

/-- C4 (amended): in derivative mode the grid still has `N` points; its
first and last points are the non-derivative endpoints pulled outward by
exactly `1/(N-1)` day; the `N-2` interior points coincide with the
non-derivative grid; and when the window is exactly one day wide
(`stop - start = 1`, as in every use by the resolver) and `N ≥ 3`, the
midpoints of the first and last consecutive pairs land exactly on
`t0 + start` and `t0 + stop`. -/
theorem generate_24hr_grid_deriv (t0 start stop : ℚ) (N : ℕ)
    (hN : 2 ≤ N) (hse : start < stop) :
    (_generate_24hr_grid t0 start stop N true).length = N
    ∧ (_generate_24hr_grid t0 start stop N true).getD 0 0
        = (_generate_24hr_grid t0 start stop N false).getD 0 0
          - 1 / ((N : ℚ) - 1)
    ∧ (_generate_24hr_grid t0 start stop N true).getD (N - 1) 0
        = (_generate_24hr_grid t0 start stop N false).getD (N - 1) 0
          + 1 / ((N : ℚ) - 1)
    ∧ (∀ k, 1 ≤ k → k ≤ N - 2 →
        (_generate_24hr_grid t0 start stop N true).getD k 0
          = (_generate_24hr_grid t0 start stop N false).getD k 0)
    ∧ (stop - start = 1 → 3 ≤ N →
        ((_generate_24hr_grid t0 start stop N true).getD 0 0
            + (_generate_24hr_grid t0 start stop N true).getD 1 0) / 2
          = t0 + start
        ∧ ((_generate_24hr_grid t0 start stop N true).getD (N - 2) 0
            + (_generate_24hr_grid t0 start stop N true).getD (N - 1) 0) / 2
          = t0 + stop) := by
  have hNQ : (2 : ℚ) ≤ (N : ℚ) := by exact_mod_cast hN
  have hN1 : (0 : ℚ) < (N : ℚ) - 1 := by linarith
  have hN1' : ((N : ℚ) - 1) ≠ 0 := ne_of_gt hN1
  refine ⟨grid_deriv_length t0 start stop N hN, ?_, ?_, ?_, ?_⟩
  · rw [grid_deriv_getD_zero, grid_nonderiv_getD t0 start stop N 0 (by omega)]
    norm_num
    ring
  · rw [grid_deriv_getD_last t0 start stop N hN,
      grid_nonderiv_getD t0 start stop N (N - 1) (by omega)]
    rw [Nat.cast_sub (by omega : 1 ≤ N), Nat.cast_one]
    rw [mul_div_assoc, div_self hN1', mul_one]
    ring
  · intro k hk1 hk2
    rw [grid_deriv_getD_mid t0 start stop N k hN hk1 hk2,
      grid_nonderiv_getD t0 start stop N k (by omega)]
  · intro hes hN3
    have hstop : stop = start + 1 := by linarith
    subst hstop
    constructor
    · rw [grid_deriv_getD_zero,
        grid_deriv_getD_mid t0 start (start + 1) N 1 hN (le_refl 1) (by omega)]
      push_cast
      field_simp
      ring
    · rw [grid_deriv_getD_last t0 start (start + 1) N hN,
        grid_deriv_getD_mid t0 start (start + 1) N (N - 2) hN (by omega) (le_refl _)]
      rw [Nat.cast_sub (by omega : 2 ≤ N)]
      push_cast
      field_simp
      ring

/-- C4 witness: `t0 = 0`, `start = 0 < 1 = stop`, `N = 3`: grid
`[-1/2, 1/2, 3/2]`, all five amended properties at once. -/
theorem generate_24hr_grid_deriv_witness :
    (_generate_24hr_grid 0 0 1 3 true).length = 3
    ∧ (_generate_24hr_grid 0 0 1 3 true).getD 0 0
        = (_generate_24hr_grid 0 0 1 3 false).getD 0 0 - 1 / ((3 : ℚ) - 1)
    ∧ (_generate_24hr_grid 0 0 1 3 true).getD (3 - 1) 0
        = (_generate_24hr_grid 0 0 1 3 false).getD (3 - 1) 0 + 1 / ((3 : ℚ) - 1)
    ∧ (∀ k, 1 ≤ k → k ≤ 3 - 2 →
        (_generate_24hr_grid 0 0 1 3 true).getD k 0
          = (_generate_24hr_grid 0 0 1 3 false).getD k 0)
    ∧ ((1 : ℚ) - 0 = 1 → 3 ≤ 3 →
        ((_generate_24hr_grid 0 0 1 3 true).getD 0 0
            + (_generate_24hr_grid 0 0 1 3 true).getD 1 0) / 2 = 0 + 0
        ∧ ((_generate_24hr_grid 0 0 1 3 true).getD (3 - 2) 0
            + (_generate_24hr_grid 0 0 1 3 true).getD (3 - 1) 0) / 2 = 0 + 1) :=
  generate_24hr_grid_deriv 0 0 1 3 (by norm_num) (by norm_num)

/-! ### C2: the two-point interpolator -/

/-- C2: for `t0 < t1`, `_two_point_interp` returns exactly
`t1 - (a1 - horizon)/slope` with `slope = (a1 - a0)/(t1 - t0)`, and whenever
`a0 < horizon < a1` the returned instant lies strictly between `t0` and `t1`
and the linear model through the two samples evaluates to exactly `horizon`
there. -/
theorem two_point_interp_exact (t0 t1 a0 a1 horizon : ℚ) (hlt : t0 < t1) :
    _two_point_interp t0 t1 a0 a1 horizon
      = t1 - (a1 - horizon) / ((a1 - a0) / (t1 - t0))
    ∧ (a0 < horizon → horizon < a1 →
        t0 < _two_point_interp t0 t1 a0 a1 horizon
        ∧ _two_point_interp t0 t1 a0 a1 horizon < t1
        ∧ a0 + (a1 - a0) / (t1 - t0) * (_two_point_interp t0 t1 a0 a1 horizon - t0)
            = horizon) := by
  refine ⟨rfl, fun h0 h1 => ?_⟩
  have ht : (0 : ℚ) < t1 - t0 := by linarith
  have ha : (0 : ℚ) < a1 - a0 := by linarith
  have hah : (0 : ℚ) < a1 - horizon := by linarith
  have ht' : t1 - t0 ≠ 0 := ne_of_gt ht
  have ha' : a1 - a0 ≠ 0 := ne_of_gt ha
  have hr : _two_point_interp t0 t1 a0 a1 horizon
      = t1 - (a1 - horizon) * (t1 - t0) / (a1 - a0) := by
    show t1 - (a1 - horizon) / ((a1 - a0) / (t1 - t0))
        = t1 - (a1 - horizon) * (t1 - t0) / (a1 - a0)
    rw [div_div_eq_mul_div]
  refine ⟨?_, ?_, ?_⟩
  · rw [hr]
    have hlt' : (a1 - horizon) * (t1 - t0) / (a1 - a0) < t1 - t0 := by
      rw [div_lt_iff ha]
      nlinarith [mul_lt_mul_of_pos_right (show a1 - horizon < a1 - a0 by linarith) ht]
    linarith
  · rw [hr]
    have hpos : 0 < (a1 - horizon) * (t1 - t0) / (a1 - a0) := by positivity
    linarith
  · rw [hr]
    field_simp
    ring

/-- C2 witness: samples `(0, -1)` and `(1, 1)` with horizon `0` interpolate
to `1/2`, strictly inside the bracket, where the linear model is `0`. -/
theorem two_point_interp_exact_witness :
    _two_point_interp 0 1 (-1) 1 0 = 1 - (1 - 0) / ((1 - -1) / (1 - 0))
    ∧ (0 : ℚ) < _two_point_interp 0 1 (-1) 1 0
    ∧ _two_point_interp 0 1 (-1) 1 0 < 1
    ∧ (-1) + (1 - -1) / (1 - 0) * (_two_point_interp 0 1 (-1) 1 0 - 0) = 0 := by
  have h := two_point_interp_exact 0 1 (-1) 1 0 (by norm_num)
  have h2 := h.2 (by norm_num) (by norm_num)
  exact ⟨h.1, h2.1, h2.2.1, h2.2.2⟩

/-! ### C6: the `which='nearest'` selection -/

/-- C6: whenever both the one-day-forward and one-day-backward searches
succeed, `which='nearest'` returns either the `'next'` or the `'previous'`
result — the one with the smaller absolute time difference from the
reference instant — and the first computed branch (`'next'`) wins under
exact equality, for all four of `calc_rise`, `calc_set`, `calc_transit`
and `calc_antitransit`. -/
theorem calc_nearest_picks_closer (obs : Observer) (trigAlt altazAlt : ℚ → ℚ)
    (time horizon : ℚ) (N : ℕ) (nr pr ns ps nt pt na pa : ℚ)
    (hnr : calc_rise obs trigAlt altazAlt time Which.next horizon N = some nr)
    (hpr : calc_rise obs trigAlt altazAlt time Which.previous horizon N = some pr)
    (hns : calc_set obs trigAlt altazAlt time Which.next horizon N = some ns)
    (hps : calc_set obs trigAlt altazAlt time Which.previous horizon N = some ps)
    (hnt : calc_transit obs trigAlt altazAlt time Which.next N = some nt)
    (hpt : calc_transit obs trigAlt altazAlt time Which.previous N = some pt)
    (hna : calc_antitransit obs trigAlt altazAlt time Which.next N = some na)
    (hpa : calc_antitransit obs trigAlt altazAlt time Which.previous N = some pa) :
    (calc_rise obs trigAlt altazAlt time Which.nearest horizon N
        = some (if |time - pr| < |time - nr| then pr else nr))
    ∧ (|time - pr| = |time - nr| →
        calc_rise obs trigAlt altazAlt time Which.nearest horizon N = some nr)
    ∧ (calc_set obs trigAlt altazAlt time Which.nearest horizon N
        = some (if |time - ps| < |time - ns| then ps else ns))
    ∧ (|time - ps| = |time - ns| →
        calc_set obs trigAlt altazAlt time Which.nearest horizon N = some ns)
    ∧ (calc_transit obs trigAlt altazAlt time Which.nearest N
        = some (if |time - pt| < |time - nt| then pt else nt))
    ∧ (|time - pt| = |time - nt| →
        calc_transit obs trigAlt altazAlt time Which.nearest N = some nt)
    ∧ (calc_antitransit obs trigAlt altazAlt time Which.nearest N
        = some (if |time - pa| < |time - na| then pa else na))
    ∧ (|time - pa| = |time - na| →
        calc_antitransit obs trigAlt altazAlt time Which.nearest N = some na) := by
  simp only [calc_rise] at hnr hpr
  simp only [calc_set] at hns hps
  simp only [calc_transit] at hnt hpt
  simp only [calc_antitransit] at hna hpa
  refine ⟨?_, fun he => ?_, ?_, fun he => ?_, ?_, fun he => ?_, ?_, fun he => ?_⟩
  · simp only [calc_rise]; rw [hnr, hpr]; rfl
  · simp only [calc_rise]; rw [hnr, hpr]
    show some (if |time - pr| < |time - nr| then pr else nr) = some nr
    rw [he, if_neg (lt_irrefl _)]
  · simp only [calc_set]; rw [hns, hps]; rfl
  · simp only [calc_set]; rw [hns, hps]
    show some (if |time - ps| < |time - ns| then ps else ns) = some ns
    rw [he, if_neg (lt_irrefl _)]
  · simp only [calc_transit]; rw [hnt, hpt]; rfl
  · simp only [calc_transit]; rw [hnt, hpt]
    show some (if |time - pt| < |time - nt| then pt else nt) = some nt
    rw [he, if_neg (lt_irrefl _)]
  · simp only [calc_antitransit]; rw [hna, hpa]; rfl
  · simp only [calc_antitransit]; rw [hna, hpa]
    show some (if |time - pa| < |time - na| then pa else na) = some na
    rw [he, if_neg (lt_irrefl _)]

/-- C6 witness: for the sample observer and the periodic cubic altitude
profile with `N = 5`, all four `'nearest'` queries return the candidate
(next or previous) that is closer to the reference instant `0`. -/
theorem calc_nearest_picks_closer_witness :
    calc_rise sampleObserver zeroAlt sampleAlt 0 Which.nearest (11 / 32) 5
        = some (1 / 3)
    ∧ calc_set sampleObserver zeroAlt sampleAlt 0 Which.nearest (11 / 32) 5
        = some (1 / 3)
    ∧ calc_transit sampleObserver zeroAlt sampleAlt 0 Which.nearest 5
        = some (-(1 / 4))
    ∧ calc_antitransit sampleObserver zeroAlt sampleAlt 0 Which.nearest 5
        = some (-(3 / 20)) := by
  have hnr : calc_rise sampleObserver zeroAlt sampleAlt 0 Which.next (11 / 32) 5
      = some (1 / 3) := by
    norm_num [calc_rise, _calc_riseset, riseset_altitudes, sampleObserver,
      Observer.init, pressure_eq_zero_bar, riseset_times, _generate_24hr_grid,
      linspace, List.range_succ, sampleAlt, fracShift, sampleCubic,
      _horiz_cross, crossCondition, crossCond, horiz_bracket,
      List.findIdx_cons, List.any_cons, _two_point_interp]
  have hpr : calc_rise sampleObserver zeroAlt sampleAlt 0 Which.previous
      (11 / 32) 5 = some (-(2 / 3)) := by
    norm_num [calc_rise, _calc_riseset, riseset_altitudes, sampleObserver,
      Observer.init, pressure_eq_zero_bar, riseset_times, _generate_24hr_grid,
      linspace, List.range_succ, sampleAlt, fracShift, sampleCubic,
      _horiz_cross, crossCondition, crossCond, horiz_bracket,
      List.findIdx_cons, List.any_cons, _two_point_interp]
  have hns : calc_set sampleObserver zeroAlt sampleAlt 0 Which.next (11 / 32) 5
      = some (1 / 3) := by
    norm_num [calc_set, _calc_riseset, riseset_altitudes, sampleObserver,
      Observer.init, pressure_eq_zero_bar, riseset_times, _generate_24hr_grid,
      linspace, List.range_succ, sampleAlt, fracShift, sampleCubic,
      _horiz_cross, crossCondition, crossCond, horiz_bracket,
      List.findIdx_cons, List.any_cons, _two_point_interp]
  have hps : calc_set sampleObserver zeroAlt sampleAlt 0 Which.previous
      (11 / 32) 5 = some (-(2 / 3)) := by
    norm_num [calc_set, _calc_riseset, riseset_altitudes, sampleObserver,
      Observer.init, pressure_eq_zero_bar, riseset_times, _generate_24hr_grid,
      linspace, List.range_succ, sampleAlt, fracShift, sampleCubic,
      _horiz_cross, crossCondition, crossCond, horiz_bracket,
      List.findIdx_cons, List.any_cons, _two_point_interp]
  have hnt : calc_transit sampleObserver zeroAlt sampleAlt 0 Which.next 5
      = some (3 / 4) := by
    norm_num [calc_transit, _calc_transit, transit_times, transit_rise_set,
      transit_dt, transit_d_altitudes, _generate_24hr_grid, linspace,
      List.range_succ, sampleAlt, fracShift, sampleCubic, _horiz_cross,
      crossCondition, crossCond, horiz_bracket, List.findIdx_cons,
      List.any_cons, _two_point_interp]
  have hpt : calc_transit sampleObserver zeroAlt sampleAlt 0 Which.previous 5
      = some (-(1 / 4)) := by
    norm_num [calc_transit, _calc_transit, transit_times, transit_rise_set,
      transit_dt, transit_d_altitudes, _generate_24hr_grid, linspace,
      List.range_succ, sampleAlt, fracShift, sampleCubic, _horiz_cross,
      crossCondition, crossCond, horiz_bracket, List.findIdx_cons,
      List.any_cons, _two_point_interp]
  have hna : calc_antitransit sampleObserver zeroAlt sampleAlt 0 Which.next 5
      = some (17 / 20) := by
    norm_num [calc_antitransit, _calc_transit, transit_times, transit_rise_set,
      transit_dt, transit_d_altitudes, _generate_24hr_grid, linspace,
      List.range_succ, sampleAlt, fracShift, sampleCubic, _horiz_cross,
      crossCondition, crossCond, horiz_bracket, List.findIdx_cons,
      List.any_cons, _two_point_interp]
  have hpa : calc_antitransit sampleObserver zeroAlt sampleAlt 0 Which.previous
      5 = some (-(3 / 20)) := by
    norm_num [calc_antitransit, _calc_transit, transit_times, transit_rise_set,
      transit_dt, transit_d_altitudes, _generate_24hr_grid, linspace,
      List.range_succ, sampleAlt, fracShift, sampleCubic, _horiz_cross,
      crossCondition, crossCond, horiz_bracket, List.findIdx_cons,
      List.any_cons, _two_point_interp]
  have H := calc_nearest_picks_closer sampleObserver zeroAlt sampleAlt 0
    (11 / 32) 5 (1 / 3) (-(2 / 3)) (1 / 3) (-(2 / 3)) (3 / 4) (-(1 / 4))
    (17 / 20) (-(3 / 20)) hnr hpr hns hps hnt hpt hna hpa
  refine ⟨?_, ?_, ?_, ?_⟩
  · rw [H.1, if_neg (by norm_num [abs_of_nonneg])]
  · rw [H.2.2.1, if_neg (by norm_num [abs_of_nonneg])]
  · rw [H.2.2.2.2.1, if_pos (by norm_num [abs_of_nonneg])]
  · rw [H.2.2.2.2.2.2.1, if_pos (by norm_num [abs_of_nonneg])]

/-! ### C7: backend dispatch on the atmosphere -/

/-- C7: the altitude backend of a rise/set query is a deterministic function
of the observer's pressure, with no fallback: with pressure exactly zero the
altitude at each grid instant is
`arcsin(sin(lat)·sin(dec) + cos(lat)·cos(dec)·cos(LST − ra))` with `LST` the
local sidereal time of that instant at the observer's longitude; with any
other pressure the refraction-aware transform backend is used. -/
theorem riseset_backend_dispatch (obs : Observer) (lst : ℝ → ℚ → ℝ)
    (altazAlt : ℚ → ℝ) (target : TargetCoord) (times : List ℚ) :
    (obs.pressure = some 0 →
      riseset_altitudes_real obs lst altazAlt target times
        = times.map (fun tm => Real.arcsin
            (Real.sin obs.latitude * Real.sin target.dec
              + Real.cos obs.latitude * Real.cos target.dec
                * Real.cos (lst obs.longitude tm - target.ra))))
    ∧ (obs.pressure ≠ some 0 →
      riseset_altitudes_real obs lst altazAlt target times = times.map altazAlt)
    ∧ (pressure_eq_zero_bar obs.pressure = true ↔ obs.pressure = some 0) := by
  have hiff : pressure_eq_zero_bar obs.pressure = true ↔ obs.pressure = some 0 := by
    cases hp : obs.pressure with
    | none => simp [pressure_eq_zero_bar]
    | some p => simp [pressure_eq_zero_bar]
  refine ⟨?_, ?_, hiff⟩
  · intro hp
    unfold riseset_altitudes_real
    rw [if_pos (hiff.mpr hp)]
    rfl
  · intro hp
    unfold riseset_altitudes_real
    rw [if_neg (fun hc => hp (hiff.mp hc))]

/-- C7 witness: a zero-pressure observer takes the trigonometric formula and
a pressure of one bar takes the transform backend. -/
theorem riseset_backend_dispatch_witness :
    riseset_altitudes_real (Observer.init 0 0 (some 0))
        (fun _ _ => 0) (fun _ => 1) (TargetCoord.mk 0 0) [0]
      = [0].map (fun tm => Real.arcsin
          (Real.sin (Observer.init 0 0 (some 0)).latitude
              * Real.sin (TargetCoord.mk (0 : ℝ) (0 : ℝ)).dec
            + Real.cos (Observer.init 0 0 (some 0)).latitude
              * Real.cos (TargetCoord.mk (0 : ℝ) (0 : ℝ)).dec
              * Real.cos ((fun (_ : ℝ) (_ : ℚ) => (0 : ℝ)) (Observer.init 0 0 (some 0)).longitude tm
                  - (TargetCoord.mk (0 : ℝ) (0 : ℝ)).ra)))
    ∧ riseset_altitudes_real (Observer.init 0 0 (some 1))
        (fun _ _ => 0) (fun _ => 1) (TargetCoord.mk 0 0) [0]
      = [0].map (fun _ => (1 : ℝ)) := by
  constructor
  · exact (riseset_backend_dispatch (Observer.init 0 0 (some 0))
      (fun _ _ => 0) (fun _ => 1) (TargetCoord.mk 0 0) [0]).1 rfl
  · exact (riseset_backend_dispatch (Observer.init 0 0 (some 1))
      (fun _ _ => 0) (fun _ => 1) (TargetCoord.mk 0 0) [0]).2.1 (by decide)

/-! ### C8: transit and antitransit work on the altitude derivative -/

theorem getD_map_q (f : ℚ → ℚ) (l : List ℚ) (i : ℕ) (hi : i < l.length) :
    (l.map f).getD i 0 = f (l.getD i 0) := by
  rw [List.getD_eq_getElem _ _ (by rw [List.length_map]; exact hi),
    List.getElem_map, List.getD_eq_getElem _ _ hi]

/-- C8: `_calc_transit` generates the one-day grid in derivative mode,
computes altitudes via the transform backend only (its result does not
depend on the trigonometric backend), takes the first difference of
consecutive altitudes — one fewer sample, each associated with the midpoint
instant of its pair — and runs the bracket finder and interpolator with
horizon `0` on that derivative sequence, in direction `setting` for a
transit and `rising` for an antitransit. -/
theorem calc_transit_uses_derivative (obs : Observer)
    (trigAlt trigAlt' altazAlt : ℚ → ℚ) (time : ℚ) (prev_next : PrevNext)
    (antitransit : Bool) (N : ℕ) :
    (_calc_transit obs trigAlt altazAlt time prev_next antitransit N
        = _calc_transit obs trigAlt' altazAlt time prev_next antitransit N)
    ∧ (_calc_transit obs trigAlt altazAlt time prev_next antitransit N
        = (_horiz_cross (transit_dt time prev_next N)
            (transit_d_altitudes altazAlt time prev_next N)
            (if antitransit then RiseSet.rising else RiseSet.setting) 0).map
          (fun lims => _two_point_interp lims.1.1 lims.1.2 lims.2.1 lims.2.2 0))
    ∧ transit_times time prev_next N
        = _generate_24hr_grid time
            (if prev_next = PrevNext.next then 0 else -1)
            (if prev_next = PrevNext.next then 1 else 0) N true
    ∧ (2 ≤ N → (transit_times time prev_next N).length = N
        ∧ (transit_dt time prev_next N).length = N - 1
        ∧ (transit_d_altitudes altazAlt time prev_next N).length = N - 1)
    ∧ (∀ i, i + 1 < N →
        (transit_dt time prev_next N).getD i 0
          = ((transit_times time prev_next N).getD i 0
              + (transit_times time prev_next N).getD (i + 1) 0) / 2
        ∧ (transit_d_altitudes altazAlt time prev_next N).getD i 0
          = altazAlt ((transit_times time prev_next N).getD (i + 1) 0)
            - altazAlt ((transit_times time prev_next N).getD i 0)) := by
  have hlen : ∀ hN : 2 ≤ N, (transit_times time prev_next N).length = N := by
    intro hN
    cases prev_next <;>
      simpa [transit_times] using grid_deriv_length time _ _ N hN
  refine ⟨rfl, ?_, ?_, fun hN => ?_, fun i hi => ?_⟩
  · cases antitransit <;> rfl
  · cases prev_next <;> rfl
  · refine ⟨hlen hN, ?_, ?_⟩
    · rw [transit_dt, List.length_zipWith, List.length_tail, hlen hN]
      exact inf_eq_right.mpr (Nat.sub_le N 1)
    · rw [transit_d_altitudes, List.length_zipWith, List.length_tail,
        List.length_map, hlen hN]
      exact inf_eq_right.mpr (Nat.sub_le N 1)
  · have hN : 2 ≤ N := by omega
    have hbound : i + 1 < (transit_times time prev_next N).length := by
      rw [hlen hN]; exact hi
    have hbound' : i + 1 < ((transit_times time prev_next N).map altazAlt).length := by
      rw [List.length_map, hlen hN]; exact hi
    constructor
    · rw [transit_dt, zipWith_tail_getD _ _ _ 0 0 hbound]
      ring
    · rw [transit_d_altitudes, zipWith_tail_getD _ _ _ 0 0 hbound',
        getD_map_q altazAlt _ (i + 1) (by rw [hlen hN]; omega),
        getD_map_q altazAlt _ i (by rw [hlen hN]; omega)]

/-! ### C10: the default observer never takes the trigonometric path -/

/-- C10: an `Observer` constructed without an explicit pressure argument
stores `pressure = None`; `None` compares unequal to `0*u.bar`, so every
rise/set query on such a default observer selects the refraction-aware
transform backend, never the trigonometric fast path (the constructor's
docstring notwithstanding). -/
theorem default_observer_uses_transform (latitude longitude : ℝ) :
    (Observer.initDefault latitude longitude).pressure = none
    ∧ pressure_eq_zero_bar (Observer.initDefault latitude longitude).pressure
        = false
    ∧ (∀ (lst : ℝ → ℚ → ℝ) (altazAlt : ℚ → ℝ) (target : TargetCoord)
        (times : List ℚ),
        riseset_altitudes_real (Observer.initDefault latitude longitude) lst
          altazAlt target times = times.map altazAlt)
    ∧ (∀ (trigAlt trigAlt' altazAlt : ℚ → ℚ) (time : ℚ)
        (prev_next : PrevNext) (rise_set : RiseSet) (horizon : ℚ) (N : ℕ),
        _calc_riseset (Observer.initDefault latitude longitude) trigAlt
            altazAlt time prev_next rise_set horizon N
          = _calc_riseset (Observer.initDefault latitude longitude) trigAlt'
              altazAlt time prev_next rise_set horizon N) := by
  exact ⟨rfl, rfl, fun _ _ _ _ => rfl, fun _ _ _ _ _ _ _ _ => rfl⟩

end Astroplan
